import Mathlib

/-!
Verification development for the diet/fitness backend (Next.js API routes).

The TypeScript request handlers are shallowly embedded as pure Lean
functions over an explicit database state.  JavaScript numbers are
modelled as `ℚ` (with `Option ℚ` where `null`/`NaN` can occur),
JavaScript truthiness is made explicit, external HTTP calls (the
generative-language API and the USDA food API) are modelled as oracle
parameters describing the outcome of the call, and each handler returns
the updated database state together with an HTTP status and the salient
response string.
-/

namespace Backend

/-! ## String helpers

`strIncludes` models JavaScript `String.prototype.includes` (literal
substring test) and `strStarts` models `String.prototype.startsWith`. -/

/-- Does the list start with the given pattern?  (`startsWith` on char lists.) -/
def listStarts : List Char → List Char → Bool
  | _, [] => true
  | [], _ :: _ => false
  | a :: as, b :: bs => (a == b) && listStarts as bs

/-- Does the list contain the pattern as a contiguous sublist? -/
def listHasSub : List Char → List Char → Bool
  | [], pat => pat.isEmpty
  | l@(_ :: t), pat => listStarts l pat || listHasSub t pat

/-- JavaScript `s.includes(pat)`: literal substring containment. -/
def strIncludes (s pat : String) : Bool := listHasSub s.toList pat.toList

/-- JavaScript `s.startsWith(pre)`. -/
def strStarts (s pre : String) : Bool := listStarts s.toList pre.toList

/-- The characters matched by `\s` in a JavaScript regular expression
(the ASCII ones; the sources only ever produce ASCII whitespace). -/
def jsIsSpace (c : Char) : Bool :=
  c == ' ' || c == '\t' || c == '\n' || c == '\r' || c == '\x0b' || c == '\x0c'

/-- JavaScript `s.toLowerCase()` (character-wise lowering). -/
def jsToLower (s : String) : String := String.mk (s.toList.map Char.toLower)

/-! ## `sanitizeText`

The chat routes post-process the model's reply with a fixed pipeline of
regex replacements (`sanitizeText` in `src/src/app/api/chat/route.ts`
and in the chat-route snapshots).  Each stage below implements one
`replace` of that pipeline on the character list.  The recursions that
are not structural carry a fuel argument initialised to more than the
list length; every step consumes at least one character, so the fuel
never runs out on the initial call. -/

/-- Matcher for `/^#{1,6}\s*/`: up to six leading `#` then whitespace.
Returns the consumed characters and the remainder. -/
def matchHashes (l : List Char) : Option (List Char × List Char) :=
  let hs := l.takeWhile (fun c => c == '#')
  if hs.isEmpty then none
  else
    let k := min hs.length 6
    let afterHash := l.drop k
    let sp := afterHash.takeWhile jsIsSpace
    some (l.take k ++ sp, afterHash.drop sp.length)

/-- Matcher for `/^\d+\.\s*/`: digits, a literal dot, then whitespace. -/
def matchNumDot (l : List Char) : Option (List Char × List Char) :=
  let ds := l.takeWhile Char.isDigit
  if ds.isEmpty then none
  else
    match l.drop ds.length with
    | '.' :: rest =>
      let sp := rest.takeWhile jsIsSpace
      some (ds ++ '.' :: sp, rest.drop sp.length)
    | _ => none

/-- Matcher for `/^[-•]\s*/`: a bullet character then whitespace. -/
def matchBullet (l : List Char) : Option (List Char × List Char) :=
  match l with
  | c :: rest =>
    if c == '-' || c == '•' then
      let sp := rest.takeWhile jsIsSpace
      some (c :: sp, rest.drop sp.length)
    else none
  | [] => none

/-- One multiline (`gm`) line-anchored replacement pass: at every line
start try the matcher and delete what it consumes; `^` holds after a
consumed `'\n'` exactly as for the JavaScript `m` flag. -/
def lineStartRepl (m : List Char → Option (List Char × List Char)) :
    Nat → Bool → List Char → List Char
  | 0, _, l => l
  | _ + 1, _, [] => []
  | fuel + 1, atStart, c :: rest =>
    if atStart then
      match m (c :: rest) with
      | some (consumed, rest') =>
        lineStartRepl m fuel (consumed.getLast? == some '\n') rest'
      | none => c :: lineStartRepl m fuel (c == '\n') rest
    else c :: lineStartRepl m fuel (c == '\n') rest

/-- Run a line-anchored replacement over a whole character list. -/
def applyLineStart (m : List Char → Option (List Char × List Char))
    (l : List Char) : List Char :=
  lineStartRepl m (l.length + 1) true l

/-- Find the closing `**` on the current line: returns the characters
before it and the remainder after it (the lazy `(.*?)` of the regex). -/
def splitClose2 : List Char → Option (List Char × List Char)
  | '*' :: '*' :: rest => some ([], rest)
  | '\n' :: _ => none
  | c :: rest => (splitClose2 rest).map (fun p => (c :: p.1, p.2))
  | [] => none

/-- Find the closing `*` on the current line. -/
def splitClose1 : List Char → Option (List Char × List Char)
  | '*' :: rest => some ([], rest)
  | '\n' :: _ => none
  | c :: rest => (splitClose1 rest).map (fun p => (c :: p.1, p.2))
  | [] => none

/-- `replace(/\*\*(.*?)\*\*/g, '$1')`: drop paired `**` delimiters. -/
def replaceBold : Nat → List Char → List Char
  | 0, l => l
  | _ + 1, [] => []
  | fuel + 1, '*' :: '*' :: rest =>
    match splitClose2 rest with
    | some (inner, after) => inner ++ replaceBold fuel after
    | none => '*' :: replaceBold fuel ('*' :: rest)
  | fuel + 1, c :: rest => c :: replaceBold fuel rest

/-- `replace(/\*(.*?)\*/g, '$1')`: drop paired `*` delimiters. -/
def replaceItalic : Nat → List Char → List Char
  | 0, l => l
  | _ + 1, [] => []
  | fuel + 1, '*' :: rest =>
    match splitClose1 rest with
    | some (inner, after) => inner ++ replaceItalic fuel after
    | none => '*' :: replaceItalic fuel rest
  | fuel + 1, c :: rest => c :: replaceItalic fuel rest

/-- `replace(/\n{3,}/g, '\n\n')`: collapse runs of three or more
newlines to exactly two. -/
def collapseNewlines : Nat → List Char → List Char
  | 0, l => l
  | _ + 1, [] => []
  | fuel + 1, '\n' :: rest =>
    let ns := rest.takeWhile (fun c => c == '\n')
    (if ns.length + 1 ≥ 3 then ['\n', '\n'] else List.replicate (ns.length + 1) '\n')
      ++ collapseNewlines fuel (rest.drop ns.length)
  | fuel + 1, c :: rest => c :: collapseNewlines fuel rest

/-- JavaScript `String.prototype.trim` on a character list. -/
def trimChars (l : List Char) : List Char :=
  ((l.dropWhile jsIsSpace).reverse.dropWhile jsIsSpace).reverse

/-- JavaScript `s.trim()`. -/
def jsTrim (s : String) : String := String.mk (trimChars s.toList)

/-- The `sanitizeText` helper of the chat routes: strips markdown
headings, bold/italic markers, list markers, star characters, collapses
blank lines and trims the result. -/
def sanitizeText (text : String) : String :=
  let l0 := text.toList
  let l1 := applyLineStart matchHashes l0
  let l2 := replaceBold (l1.length + 1) l1
  let l3 := replaceItalic (l2.length + 1) l2
  let l4 := applyLineStart matchNumDot l3
  let l5 := applyLineStart matchBullet l4
  let l6 := l5.filter (fun c => !(c == '⭐' || c == '★'))
  let l7 := collapseNewlines (l6.length + 1) l6
  String.mk (trimChars l7)

/-! ## User profiles and the calorie estimator

`calculateCalories` appears verbatim in `src/src/app/api/chat/route.ts`
and in the chat-route snapshot `src/unnamed/part_006`.  JavaScript
numbers are modelled as `ℚ`; `Math.round` is `round` on `ℚ` (both round
half towards positive infinity).  A profile field that is absent or
falsy (`0`, `''`) fails the guard and yields `null` (`none`).  An
`activity_level` string outside the four known keys would make the
JavaScript arithmetic produce `NaN`; that degenerate value is likewise
modelled as `none`. -/

/-- The columns of a `users` row that the chat routes read. -/
structure UserProfile where
  goal : Option String := none
  age : Option ℚ := none
  current_weight : Option ℚ := none
  height : Option ℚ := none
  gender : Option String := none
  activity_level : Option String := none
  allergies : Option (List String) := none
deriving DecidableEq, Repr

/-- The `activityMap` object: `sedentary ↦ 1.2`, `light ↦ 1.375`,
`moderate ↦ 1.55`, `active ↦ 1.725`; any other key is absent. -/
def activityMap (s : String) : Option ℚ :=
  if s = "sedentary" then some 1.2
  else if s = "light" then some 1.375
  else if s = "moderate" then some 1.55
  else if s = "active" then some 1.725
  else none

/-- Mifflin-St Jeor calorie estimate (`calculateCalories`). -/
def calculateCalories (profile : UserProfile) : Option ℤ :=
  match profile.age, profile.height, profile.current_weight,
        profile.gender, profile.activity_level with
  | some age, some height, some w, some gender, some activity =>
    if age = 0 ∨ height = 0 ∨ w = 0 ∨ gender = "" ∨ activity = "" then none
    else
      let bmr : ℚ :=
        if gender = "male" then 10 * w + 6.25 * height - 5 * age + 5
        else 10 * w + 6.25 * height - 5 * age - 161
      match activityMap activity with
      | none => none
      | some mult =>
        let calories := bmr * mult
        let calories := if profile.goal = some "lose_weight" then calories - 400 else calories
        let calories := if profile.goal = some "gain_weight" then calories + 400 else calories
        some (round calories)
  | _, _, _, _, _ => none

/-! ## The chat-route snapshot `src/unnamed/part_006`

This snapshot is the chat route with hard allergy enforcement: a
per-user in-memory context stores an active intent and a list of
allergen keys, and a query that mentions an alias of a stored allergen
is answered with a templated refusal instead of calling the external
generative-language API. -/

namespace Part006

/-- The intents of the snapshot's classifier. -/
inductive ActiveIntent where
  | weight_loss
  | weight_gain
  | maintenance
  | medical
  | general
deriving DecidableEq, Repr

/-- Literal-alternation regex test: `/a|b|c/.test(q)` is a substring
check for each alternative (all patterns in the source are literals). -/
def regexTest (pats : List String) (q : String) : Bool :=
  pats.any (fun p => strIncludes q p)

/-- The snapshot's `detectIntent`: ordered regex tests on the
lowercased query, first match wins, `null` when none matches. -/
def detectIntent (query : String) : Option ActiveIntent :=
  let q := jsToLower query
  if regexTest ["lose", "fat", "slim", "weight loss"] q then some .weight_loss
  else if regexTest ["gain", "bulk", "muscle", "weight gain"] q then some .weight_gain
  else if regexTest ["maintain", "maintenance"] q then some .maintenance
  else if regexTest ["thyroid", "diabetes", "pcod", "bp", "cholesterol",
                     "acidity", "pain", "bloating"] q then some .medical
  else none

/-- The snapshot's `loadFoodVocabulary()`: allergen key to aliases, in
object-entry order. -/
def loadFoodVocabulary : List (String × List String) :=
  [("oats", ["oats", "oatmeal", "rolled oats", "oat flour"]),
   ("peanut", ["peanut", "peanuts", "peanut butter"]),
   ("milk", ["milk", "dairy", "curd", "yogurt", "cheese"]),
   ("egg", ["egg", "eggs"]),
   ("soy", ["soy", "soya"]),
   ("gluten", ["wheat", "barley", "rye"]),
   ("fish", ["fish", "seafood"])]

/-- The snapshot's `detectUserAllergies`: allergen keys whose alias
occurs in the lowercased query, in vocabulary order. -/
def detectUserAllergies (query : String) : List String :=
  let q := jsToLower query
  (loadFoodVocabulary.filter (fun e => e.2.any (fun a => strIncludes q a))).map (·.1)

/-- `vocabulary[allergy] || []` from `enforceAllergyRules`. -/
def vocabAliases (allergy : String) : List String :=
  ((loadFoodVocabulary.find? (fun e => e.1 == allergy)).map (·.2)).getD []

/-- Does the lowercased query contain an alias of this allergen? -/
def allergyHit (query allergy : String) : Bool :=
  (vocabAliases allergy).any (fun a => strIncludes (jsToLower query) a)

/-- The template literal inside `enforceAllergyRules`. -/
def refusalTemplate (allergy : String) (aliases : List String) : String :=
  "Because you have a " ++ allergy ++ " allergy, foods containing " ++ allergy ++
  ", such as " ++ String.intercalate ", " aliases ++
  ", are not safe for you. Consuming them may trigger allergic reactions.\n\nFor meals or diet plans, these foods should be completely avoided and replaced with safe alternatives."

/-- The sanitized refusal text the snapshot produces for an allergen. -/
def refusalText (allergy : String) : String :=
  sanitizeText (refusalTemplate allergy (vocabAliases allergy))

/-- The snapshot's `enforceAllergyRules`: for the first stored allergen
with an alias in the lowercased query, the templated refusal. -/
def enforceAllergyRules (query : String) (userAllergies : List String) : Option String :=
  let q := jsToLower query
  userAllergies.findSome? (fun allergy =>
    let aliases := vocabAliases allergy
    if aliases.any (fun a => strIncludes q a) then
      some (sanitizeText (refusalTemplate allergy aliases))
    else none)

/-- The per-user entry of the snapshot's in-memory `chatMemory` map. -/
structure ChatContext where
  activeIntent : Option ActiveIntent
  allergies : List String
deriving DecidableEq, Repr

/-- Outcome of the `fetch` to the generative-language API: the call
threw, the parsed body had an `error` field, it had no candidate text,
or it had candidate text `raw`. -/
inductive FetchOutcome where
  | throws
  | errorField
  | noText
  | text (raw : String)
deriving DecidableEq, Repr

/-- Result of the snapshot's `getAiReply`: the reply string, the
updated per-user chat context, and whether the external
generative-language API was called. -/
structure ReplyResult where
  reply : String
  ctx : ChatContext
  calledApi : Bool
deriving DecidableEq, Repr

/-- The snapshot's `getAiReply`.  The profile/calorie context feeds
only the prompt text, which is not modelled; the allergy update, the
enforcement short-circuit and the fallback replies are modelled
exactly.  (A body with an `error` field has no candidates, so it takes
the no-text fallback.) -/
def getAiReply (apiKey : String) (outcome : FetchOutcome)
    (ctx : ChatContext) (query : String) : ReplyResult :=
  if apiKey = "" then ⟨"I am unavailable right now.", ctx, false⟩
  else
    let detectedIntent := detectIntent query
    let ctx1 : ChatContext :=
      { ctx with activeIntent := (match detectedIntent with
                                  | some i => some i
                                  | none => ctx.activeIntent) }
    let ctx2 : ChatContext :=
      { ctx1 with allergies :=
          ((detectUserAllergies query).foldl
            (fun l a => if a ∈ l then l else l ++ [a]) ctx1.allergies) }
    match enforceAllergyRules query ctx2.allergies with
    | some violation => ⟨violation, ctx2, false⟩
    | none =>
      let reply :=
        match outcome with
        | .throws => "Please try again."
        | .errorField => "Please try again."
        | .noText => "Please try again."
        | .text raw => if raw = "" then "Please try again." else sanitizeText raw
      ⟨reply, ctx2, true⟩

end Part006

/-! ## Relational state

One structure per table; automatically incremented primary keys are
carried as `next…Id` counters.  `created_at` timestamps only ever feed
`DATE(created_at) = CURDATE()` comparisons and `ORDER BY` over the
insertion order, so diary rows store a day number and ordering is list
order. -/

/-- A `users` row. -/
structure User where
  id : Nat
  name : String
  email : String
  password : String
  goal : Option String
  age : Option ℚ
  current_weight : Option ℚ
  target_weight : Option ℚ
  height : Option ℚ
  gender : Option String
  activity_level : Option String
  /-- The JSON-encoded allergy list, in parsed form (`NULL` is `none`). -/
  allergies : Option (List String)
deriving DecidableEq, Repr

/-- A `food_items` row. -/
structure FoodItem where
  id : Nat
  name : String
  barcode_upc : Option String
  calories : ℚ
  protein : ℚ
  carbs : ℚ
  fat : ℚ
  serving_size : ℚ
  serving_unit : String
deriving DecidableEq, Repr

/-- A `diary_logs` row (`created_at` reduced to its calendar day). -/
structure DiaryLog where
  id : Nat
  user_id : Nat
  food_id : ℚ
  meal_type : String
  day : Nat
deriving DecidableEq, Repr

/-- A `messages` row; `sender_id = 0` or `receiver_id = 0` denotes the AI. -/
structure Message where
  id : Nat
  sender_id : Nat
  receiver_id : Nat
  message : String
deriving DecidableEq, Repr

/-- The database state. -/
structure Db where
  users : List User
  nextUserId : Nat
  foods : List FoodItem
  nextFoodId : Nat
  logs : List DiaryLog
  nextLogId : Nat
  messages : List Message
  nextMsgId : Nat
deriving DecidableEq, Repr

/-- An HTTP response, reduced to the status code and the salient
string of the JSON body (the `message` or the `reply` field). -/
structure Resp where
  status : Nat
  body : String
deriving DecidableEq, Repr

/-- JavaScript truthiness of an optional string (`undefined`/`''` are falsy). -/
def jsTruthyS : Option String → Bool
  | none => false
  | some s => !(s == "")

/-- JavaScript truthiness of an optional number (`undefined`/`0`/`NaN` falsy;
`NaN` is encoded as `none`). -/
def jsTruthyQ : Option ℚ → Bool
  | none => false
  | some q => !(q == 0)

/-- JavaScript `x || d` for an optional number. -/
def jsOrQ (o : Option ℚ) (d : ℚ) : ℚ :=
  if jsTruthyQ o then o.getD d else d

/-! ## The chat route `src/src/app/api/chat/route.ts`

The canonical chat route: allergies live in the `users.allergies`
column, newly mentioned allergens are merged into it, and the external
generative-language API is always called (there is no enforcement
short-circuit in this version). -/

namespace ChatRoute

/-- The route's `ALLERGY_VOCABULARY`, in object-entry order. -/
def ALLERGY_VOCABULARY : List (String × List String) :=
  [("oats", ["oats", "oatmeal", "rolled oats", "oat flour", "muesli"]),
   ("peanut", ["peanut", "peanuts", "peanut butter", "groundnut"]),
   ("milk", ["milk", "dairy", "curd", "yogurt", "cheese", "paneer", "whey"]),
   ("egg", ["egg", "eggs", "omelette", "mayonnaise"]),
   ("soy", ["soy", "soya", "tofu", "soy milk"]),
   ("gluten", ["wheat", "barley", "rye", "maida", "flour", "bread", "roti"]),
   ("fish", ["fish", "seafood", "prawns", "shrimp"])]

/-- The route's `detectAllergyKeys`: allergen keys with an alias in the
lowercased text, in vocabulary order. -/
def detectAllergyKeys (text : String) : List String :=
  let q := jsToLower text
  (ALLERGY_VOCABULARY.filter (fun e => e.2.any (fun al => strIncludes q al))).map (·.1)

/-- JavaScript `Array.from(new Set(l))`: deduplicate keeping the first
occurrence of each element. -/
def jsSetDedup (l : List String) : List String :=
  l.foldl (fun acc x => if x ∈ acc then acc else acc ++ [x]) []

/-- The route's `getUserContext`: profile row, calorie estimate and
parsed allergy list of the user (empty profile when the row is absent). -/
def getUserContext (db : Db) (userId : Nat) : UserProfile × Option ℤ × List String :=
  let rows := db.users.filter (fun u => u.id == userId)
  let profile : UserProfile :=
    match rows with
    | [] => {}
    | u :: _ =>
      { goal := u.goal, age := u.age, current_weight := u.current_weight,
        height := u.height, gender := u.gender,
        activity_level := u.activity_level, allergies := u.allergies }
  (profile, calculateCalories profile, profile.allergies.getD [])

/-- Effect of `UPDATE users SET allergies = ? WHERE id = ?`. -/
def updateUsersAllergies (db : Db) (userId : Nat) (l : List String) : Db :=
  { db with users := db.users.map (fun u =>
      if u.id == userId then { u with allergies := some l } else u) }

/-- The stored allergy list the route would read for a user. -/
def storedAllergies (db : Db) (userId : Nat) : List String :=
  (getUserContext db userId).2.2

/-- The route's `getAiReply`: merge newly mentioned allergens into the
stored list, then call the generative-language API and post-process or
fall back.  The chat history and the system prompt feed only the
request payload, which is not modelled.  Returns the reply and the
updated database. -/
def getAiReply (apiKey : String) (outcome : Part006.FetchOutcome)
    (db : Db) (userId : Nat) (query : String) : String × Db :=
  if apiKey = "" then ("I am unavailable right now.", db)
  else
    let savedAllergies := (getUserContext db userId).2.2
    let newlyDetected := detectAllergyKeys query
    let db1 :=
      if newlyDetected.length > 0 then
        updateUsersAllergies db userId (jsSetDedup (savedAllergies ++ newlyDetected))
      else db
    let reply :=
      match outcome with
      | .throws => "I seem to be offline. Please try again in a moment."
      | .errorField => "I'm having a bit of trouble focusing. Could you repeat that?"
      | .noText => "How can I help you with your nutrition today?"
      | .text raw => if raw = "" then "How can I help you with your nutrition today?"
                     else sanitizeText raw
    (reply, db1)

/-- `GET /api/chat`: read-only transcript fetch. -/
def chatGet (db : Db) (auth : Option Nat) : Db × Resp :=
  match auth with
  | none => (db, ⟨401, "Unauthorized"⟩)
  | some _ => (db, ⟨200, ""⟩)

/-- `POST /api/chat`: store the trimmed user message, compute the AI
reply, store the reply. -/
def chatPost (apiKey : String) (outcome : Part006.FetchOutcome)
    (auth : Option Nat) (bodyMessage : Option String) (db : Db) : Db × Resp :=
  match auth with
  | none => (db, ⟨401, "Unauthorized"⟩)
  | some uid =>
    match bodyMessage with
    | none => (db, ⟨400, "Message cannot be empty"⟩)
    | some raw =>
      let message := jsTrim raw
      if message = "" then (db, ⟨400, "Message cannot be empty"⟩)
      else
        let db1 := { db with
          messages := db.messages ++ [⟨db.nextMsgId, uid, 0, message⟩],
          nextMsgId := db.nextMsgId + 1 }
        let r := getAiReply apiKey outcome db1 uid message
        let db2 := r.2
        let db3 := { db2 with
          messages := db2.messages ++ [⟨db2.nextMsgId, 0, uid, r.1⟩],
          nextMsgId := db2.nextMsgId + 1 }
        (db3, ⟨200, r.1⟩)

end ChatRoute

/-! ## The diary route `src/src/app/api/diary/route.ts` -/

namespace Diary

/-- A `food_id` from the request body: a JSON number or a string. -/
inductive FoodId where
  | num (n : ℚ)
  | str (s : String)
deriving DecidableEq, Repr

/-- JavaScript truthiness of an optional `food_id`. -/
def jsTruthyFoodId : Option FoodId → Bool
  | none => false
  | some (.num n) => !(n == 0)
  | some (.str s) => !(s == "")

/-- `Number(food_id)`: the identity on numbers; on strings the given
parser, with `none` standing for `NaN`. -/
def toNumber (numParse : String → Option ℚ) : FoodId → Option ℚ
  | .num n => some n
  | .str s => numParse s

/-- The parsed body of a USDA `/food/{fdcId}` response: description and
`foodNutrients` as nutrient-id/amount pairs. -/
structure UsdaFood where
  description : String
  foodNutrients : List (Nat × ℚ)
deriving DecidableEq, Repr

/-- Outcome of the `fetch` to the USDA API: a failure (thrown error or
a non-ok response) or a parsed body. -/
inductive UsdaFetch where
  | fails
  | ok (food : UsdaFood)
deriving DecidableEq, Repr

/-- The normalized food record built by `getUsdaFoodDetails`. -/
structure FoodDetails where
  name : String
  calories : ℚ
  protein : ℚ
  fat : ℚ
  carbs : ℚ
  serving_size : ℚ
  serving_unit : String
deriving DecidableEq, Repr

/-- The route's `getUsdaFoodDetails`: `null` without an API key or on a
failed fetch, otherwise the nutrients mapped into the local format
(`find(...)?.amount || 0`). -/
def getUsdaFoodDetails (apiKey : String) (fetched : UsdaFetch) : Option FoodDetails :=
  if apiKey = "" then none
  else
    match fetched with
    | .fails => none
    | .ok data =>
      let getNutrient : Nat → ℚ := fun id =>
        (((data.foodNutrients.find? (fun n => n.1 == id)).map (·.2)).getD 0)
      some ⟨data.description, getNutrient 1008, getNutrient 1003,
            getNutrient 1004, getNutrient 1005, 100, "g"⟩

/-- `foodId.toString().replace('usda-', '')`: under the `startsWith`
guard the first occurrence is the prefix, so it is dropped. -/
def stripUsdaOnce (s : String) : String :=
  if strStarts s "usda-" then s.drop 5 else s

/-- Result of `ensureFoodExists`: the returned id (`none` for
`null`/`NaN`), the database, whether the `food_items` table was
queried, and whether the USDA fetch step was reached. -/
structure EnsureResult where
  ret : Option ℚ
  db : Db
  queriedDb : Bool
  calledUsda : Bool
deriving DecidableEq, Repr

/-- The route's `ensureFoodExists`.  A numeric id or a string without
the `usda-` prefix is returned via `Number(...)` untouched; otherwise
the `barcode_upc` column is used as a cache keyed by the `usda-...`
identifier, filled from the USDA API on a miss. -/
def ensureFoodExists (numParse : String → Option ℚ) (usdaKey : String)
    (usdaFetch : String → UsdaFetch) (db : Db) (foodId : FoodId) : EnsureResult :=
  match foodId with
  | .num n => ⟨some n, db, false, false⟩
  | .str s =>
    if !(strStarts s "usda-") then ⟨numParse s, db, false, false⟩
    else
      match db.foods.find? (fun f => f.barcode_upc == some s) with
      | some f => ⟨some (f.id : ℚ), db, true, false⟩
      | none =>
        let fdcId := stripUsdaOnce s
        match getUsdaFoodDetails usdaKey (usdaFetch fdcId) with
        | none => ⟨none, db, true, true⟩
        | some d =>
          let newId := db.nextFoodId
          ⟨some (newId : ℚ),
           { db with
             foods := db.foods ++
               [⟨newId, d.name, some s, d.calories, d.protein, d.carbs, d.fat,
                 d.serving_size, d.serving_unit⟩],
             nextFoodId := db.nextFoodId + 1 },
           true, true⟩

/-- `GET /api/diary`: read-only. -/
def diaryGet (db : Db) (auth : Option Nat) (date : Option String) : Db × Resp :=
  match auth with
  | none => (db, ⟨401, "Unauthorized"⟩)
  | some _ =>
    if !(jsTruthyS date) then (db, ⟨400, "Date parameter is required"⟩)
    else (db, ⟨200, ""⟩)

/-- The duplicate check of `POST /api/diary`: an existing log of the
same user, food, meal type and day. -/
def dupExists (db : Db) (uid : Nat) (localFoodId : ℚ) (mealType : String)
    (today : Nat) : Bool :=
  db.logs.any (fun lg =>
    lg.user_id == uid && decide (lg.food_id = localFoodId) &&
    lg.meal_type == mealType && lg.day == today)

/-- `POST /api/diary`: resolve the food via `ensureFoodExists`, reject
falsy resolved ids with 400, duplicates with 409, otherwise insert one
`diary_logs` row. -/
def diaryPost (numParse : String → Option ℚ) (usdaKey : String)
    (usdaFetch : String → UsdaFetch) (today : Nat) (auth : Option Nat)
    (food_id : Option FoodId) (meal_type : Option String) (db : Db) : Db × Resp :=
  match auth with
  | none => (db, ⟨401, "Unauthorized"⟩)
  | some uid =>
    if !(jsTruthyFoodId food_id && jsTruthyS meal_type) then
      (db, ⟨400, "Required fields missing"⟩)
    else
      match food_id, meal_type with
      | some fid, some mt =>
        let er := ensureFoodExists numParse usdaKey usdaFetch db fid
        match er.ret with
        | none => (er.db, ⟨400, "Invalid food item"⟩)
        | some localFoodId =>
          if localFoodId = 0 then (er.db, ⟨400, "Invalid food item"⟩)
          else if dupExists er.db uid localFoodId mt today then
            (er.db, ⟨409, "This item is already in your " ++ mt ++ " list."⟩)
          else
            ({ er.db with
               logs := er.db.logs ++ [⟨er.db.nextLogId, uid, localFoodId, mt, today⟩],
               nextLogId := er.db.nextLogId + 1 },
             ⟨201, "Food logged successfully"⟩)
      | _, _ => (db, ⟨400, "Required fields missing"⟩)

end Diary

/-! ## The remaining handlers (auth, profile, food, recommendation)

These are read-only or insert-only; their response payloads beyond the
status code are irrelevant to the claims and left as fixed strings. -/

/-- The request body of `POST /api/auth/register`; `hashedPassword` is
the (unmodelled) bcrypt hash of the submitted password. -/
structure RegisterBody where
  name : Option String
  email : Option String
  password : Option String
  goal : Option String
  age : Option ℚ
  currentWeight : Option ℚ
  targetWeight : Option ℚ
  gender : Option String
  activityLevel : Option String
  height : Option ℚ
  hashedPassword : String

/-- `POST /api/auth/register`: validate, reject duplicate emails
(`ER_DUP_ENTRY` from the unique index) with 409, otherwise insert one
`users` row with a `NULL` allergy list. -/
def registerPost (db : Db) (b : RegisterBody) : Db × Resp :=
  if !(jsTruthyS b.name && jsTruthyS b.email && jsTruthyS b.password && jsTruthyS b.goal) then
    (db, ⟨400, "Please provide all required fields."⟩)
  else if db.users.any (fun u => u.email == b.email.getD "") then
    (db, ⟨409, "Email already exists."⟩)
  else
    ({ db with
       users := db.users ++
         [⟨db.nextUserId, b.name.getD "", b.email.getD "", b.hashedPassword,
           b.goal, b.age, b.currentWeight, b.targetWeight, b.height,
           b.gender, b.activityLevel, none⟩],
       nextUserId := db.nextUserId + 1 },
     ⟨201, "User registered successfully!"⟩)

/-- `POST /api/auth/login`: read-only; `bcryptOk` is the outcome of the
bcrypt comparison and `jwtSecret` the environment secret (its absence
makes the handler throw into the catch-all 500). -/
def loginPost (db : Db) (email password : Option String) (bcryptOk : Bool)
    (jwtSecret : Option String) : Db × Resp :=
  if !(jsTruthyS email && jsTruthyS password) then
    (db, ⟨400, "Please provide email and password."⟩)
  else
    match db.users.find? (fun u => u.email == email.getD "") with
    | none => (db, ⟨404, "User not found."⟩)
    | some _ =>
      if !bcryptOk then (db, ⟨401, "Invalid credentials."⟩)
      else
        match jwtSecret with
        | none => (db, ⟨500, "JWT_SECRET is not defined."⟩)
        | some _ => (db, ⟨200, "Login successful!"⟩)

/-- `GET /api/user/me`: read-only. -/
def meGet (db : Db) (auth : Option Nat) : Db × Resp :=
  match auth with
  | none => (db, ⟨401, "Unauthorized"⟩)
  | some uid =>
    match db.users.find? (fun u => u.id == uid) with
    | none => (db, ⟨404, "User not found"⟩)
    | some _ => (db, ⟨200, ""⟩)

/-- `GET /api/food`: read-only search over the local table and the USDA
API. -/
def foodSearchGet (db : Db) (_query : String) : Db × Resp :=
  (db, ⟨200, ""⟩)

/-- `GET /api/food/barcode/[upc]`: read-only lookup by barcode. -/
def barcodeGet (db : Db) (upc : Option String) : Db × Resp :=
  if !(jsTruthyS upc) then (db, ⟨400, "Barcode (UPC) is required"⟩)
  else
    match db.foods.find? (fun f => f.barcode_upc == some (upc.getD "")) with
    | none => (db, ⟨404, "Food item not found for this barcode"⟩)
    | some _ => (db, ⟨200, ""⟩)

/-- The request body of `POST /api/food/custom`. -/
structure CustomFoodBody where
  name : Option String
  calories : Option ℚ
  protein : Option ℚ
  carbs : Option ℚ
  fat : Option ℚ
  serving_size : Option ℚ
  serving_unit : Option String

/-- `POST /api/food/custom`: validate, then insert one `food_items` row
with falsy macro fields defaulted (`|| 0.00`, `|| 1.00`). -/
def foodCustomPost (db : Db) (auth : Option Nat) (b : CustomFoodBody) : Db × Resp :=
  match auth with
  | none => (db, ⟨401, "Unauthorized"⟩)
  | some _ =>
    if !(jsTruthyS b.name && jsTruthyQ b.calories && jsTruthyS b.serving_unit) then
      (db, ⟨400, "Missing required fields (Name, Calories, Serving Unit)."⟩)
    else
      ({ db with
         foods := db.foods ++
           [⟨db.nextFoodId, b.name.getD "", none, b.calories.getD 0,
             jsOrQ b.protein 0, jsOrQ b.carbs 0, jsOrQ b.fat 0,
             jsOrQ b.serving_size 1, b.serving_unit.getD ""⟩],
         nextFoodId := db.nextFoodId + 1 },
       ⟨201, "Custom food saved"⟩)

/-- `POST /api/ai/recommend`: read-only.  A response with an `error`
field or without candidate text falls back to the canned string with
status 200; a thrown fetch lands in the catch-all, which returns 500. -/
def recommendPost (outcome : Part006.FetchOutcome) (db : Db)
    (auth : Option Nat) (_query _rtype : Option String) : Db × Resp :=
  match auth with
  | none => (db, ⟨401, "Unauthorized"⟩)
  | some _ =>
    match outcome with
    | .throws => (db, ⟨500, "Error processing AI request."⟩)
    | .errorField =>
      (db, ⟨200, "I'm sorry, I couldn't generate a recommendation right now."⟩)
    | .noText =>
      (db, ⟨200, "I'm sorry, I couldn't generate a recommendation right now."⟩)
    | .text raw =>
      (db, ⟨200, if raw = "" then "I'm sorry, I couldn't generate a recommendation right now."
                 else raw⟩)

/-! ## The API surface as a transition system

One constructor per route handler, carrying the request inputs and the
oracles for the external calls; `applyOp` is the corresponding state
transition. -/

/-- A request against one of the repository's API route handlers. -/
inductive Op where
  | register (b : RegisterBody)
  | login (email password : Option String) (bcryptOk : Bool) (jwtSecret : Option String)
  | me (auth : Option Nat)
  | foodSearch (query : String)
  | barcode (upc : Option String)
  | foodCustom (auth : Option Nat) (b : CustomFoodBody)
  | diaryGet (auth : Option Nat) (date : Option String)
  | diaryPost (numParse : String → Option ℚ) (usdaKey : String)
      (usdaFetch : String → Diary.UsdaFetch) (today : Nat)
      (auth : Option Nat) (food_id : Option Diary.FoodId) (meal_type : Option String)
  | chatGet (auth : Option Nat)
  | chatPost (geminiKey : String) (outcome : Part006.FetchOutcome)
      (auth : Option Nat) (bodyMessage : Option String)
  | recommend (outcome : Part006.FetchOutcome) (auth : Option Nat)
      (query rtype : Option String)

/-- Dispatch a request to its handler. -/
def applyOp : Op → Db → Db × Resp
  | .register b, db => registerPost db b
  | .login e p ok s, db => loginPost db e p ok s
  | .me a, db => meGet db a
  | .foodSearch q, db => foodSearchGet db q
  | .barcode u, db => barcodeGet db u
  | .foodCustom a b, db => foodCustomPost db a b
  | .diaryGet a d, db => Diary.diaryGet db a d
  | .diaryPost np k uf today a fid mt, db => Diary.diaryPost np k uf today a fid mt db
  | .chatGet a, db => ChatRoute.chatGet db a
  | .chatPost k o a m, db => ChatRoute.chatPost k o a m db
  | .recommend o a q t, db => recommendPost o db a q t

/-! ## Specification-side definitions

These follow the wording of the specification (not the source) and are
compared with the source-derived definitions in the theorems below. -/

/-- The activity multiplier as the specification states it: 1.2 for
`sedentary`, 1.375 for `light`, 1.55 for `moderate`, 1.725 for `active`. -/
def specMultiplier (act : String) : ℚ :=
  if act = "sedentary" then 1.2
  else if act = "light" then 1.375
  else if act = "moderate" then 1.55
  else 1.725

/-- The goal offset as the specification states it: −400 for
`lose_weight`, +400 for `gain_weight`, 0 otherwise. -/
def specGoalOffset (goal : Option String) : ℚ :=
  if goal = some "lose_weight" then -400
  else if goal = some "gain_weight" then 400
  else 0

/-- The ordered intent rules as the specification lists them. -/
def intentRules : List (List String × Part006.ActiveIntent) :=
  [(["lose", "fat", "slim", "weight loss"], .weight_loss),
   (["gain", "bulk", "muscle", "weight gain"], .weight_gain),
   (["maintain", "maintenance"], .maintenance),
   (["thyroid", "diabetes", "pcod", "bp", "cholesterol",
     "acidity", "pain", "bloating"], .medical)]

/-- First rule whose pattern list matches, as the specification words
it: "ordered regex matches against lowercased input, first match wins". -/
def firstMatch : List (List String × Part006.ActiveIntent) → String → Option Part006.ActiveIntent
  | [], _ => none
  | r :: rs, q => if Part006.regexTest r.1 q then some r.2 else firstMatch rs q

/-- The intent classifier as described by the specification. -/
def detectIntentSpec (query : String) : Option Part006.ActiveIntent :=
  firstMatch intentRules (jsToLower query)

/-- Forget the allergy field of a user row (used to state that every
other field is unchanged). -/
def clearAllergies (u : User) : User := { u with allergies := none }

/-- Frame property of an operation: every stored `food_items`,
`diary_logs` and `messages` row is preserved unchanged (rows are only
appended), and every stored `users` row is preserved up to its
`allergies` field. -/
def Preserves (db db' : Db) : Prop :=
  db.foods <+: db'.foods ∧ db.logs <+: db'.logs ∧ db.messages <+: db'.messages ∧
  db.users.map clearAllergies <+: db'.users.map clearAllergies

/-- Is the operation the chat-route POST (the only handler containing
an `UPDATE` statement)? -/
def isChatPost : Op → Bool
  | .chatPost _ _ _ _ => true
  | _ => false

/-- A sample user row for concrete witnesses. -/
def sampleUser : User :=
  ⟨1, "Asma", "asma@example.com", "hashed", some "lose_weight", some 30,
   some 70, some 60, some 170, some "male", some "moderate", some ["milk"]⟩

/-- A sample database state for concrete witnesses. -/
def sampleDb : Db := ⟨[sampleUser], 2, [], 1, [], 1, [], 1⟩

/-- A number parser that always yields `NaN`, for concrete witnesses. -/
def sampleNumParse : String → Option ℚ := fun _ => none

/-- A sample USDA response body for concrete witnesses. -/
def sampleUsdaFood : Diary.UsdaFood := ⟨"Apple", [(1008, 52), (1003, 1)]⟩

/-- A USDA oracle answering every fetch with `sampleUsdaFood`. -/
def sampleUsdaFetch : String → Diary.UsdaFetch := fun _ => .ok sampleUsdaFood

/-- The normalized details of `sampleUsdaFood`. -/
def sampleFoodDetails : Diary.FoodDetails := ⟨"Apple", 52, 1, 0, 0, 100, "g"⟩

/-! # Theorems -/

/-- C1: for every profile whose age, height, current weight, gender and
activity level are all present and non-zero, `calculateCalories`
returns `round(BMR * multiplier + offset)` with the Mifflin-St Jeor BMR
(`10·w + 6.25·h − 5·a + 5` for gender `male`, `10·w + 6.25·h − 5·a −
161` for gender `female`), the spec's activity multiplier and the
spec's goal offset. -/
theorem calorie_formula_matches_spec (p : UserProfile) (a h w : ℚ) (g act : String)
    (hage : p.age = some a) (ha : a ≠ 0)
    (hht : p.height = some h) (hh : h ≠ 0)
    (hwt : p.current_weight = some w) (hw : w ≠ 0)
    (hg : p.gender = some g)
    (hact : p.activity_level = some act)
    (hactv : act = "sedentary" ∨ act = "light" ∨ act = "moderate" ∨ act = "active") :
    (g = "male" →
      calculateCalories p =
        some (round ((10 * w + 6.25 * h - 5 * a + 5) * specMultiplier act +
          specGoalOffset p.goal))) ∧
    (g = "female" →
      calculateCalories p =
        some (round ((10 * w + 6.25 * h - 5 * a - 161) * specMultiplier act +
          specGoalOffset p.goal))) := by
  constructor <;> rintro rfl <;> rcases hactv with rfl | rfl | rfl | rfl <;>
  · by_cases h1 : p.goal = some "lose_weight"
    · simp only [calculateCalories, hage, hht, hwt, hg, hact, activityMap,
        specMultiplier, specGoalOffset, ha, hh, hw, h1, String.reduceEq,
        Option.some.injEq, reduceIte, false_or, or_false, or_self]
      all_goals (congr 1; ring)
    · by_cases h2 : p.goal = some "gain_weight"
      · simp only [calculateCalories, hage, hht, hwt, hg, hact, activityMap,
          specMultiplier, specGoalOffset, ha, hh, hw, h1, h2, String.reduceEq,
          Option.some.injEq, reduceIte, false_or, or_false, or_self]
        all_goals (congr 1; ring)
      · simp only [calculateCalories, hage, hht, hwt, hg, hact, activityMap,
          specMultiplier, specGoalOffset, ha, hh, hw, h1, h2, String.reduceEq,
          Option.some.injEq, reduceIte, false_or, or_false, or_self]
        all_goals (congr 1; ring)

/-- Witness for C1 at a concrete profile. -/
theorem calorie_formula_matches_spec_w :
    (30 : ℚ) ≠ 0 ∧ (170 : ℚ) ≠ 0 ∧ (70 : ℚ) ≠ 0 ∧
    calculateCalories
      { goal := some "lose_weight", age := some 30, current_weight := some 70,
        height := some 170, gender := some "male", activity_level := some "moderate" } =
      some (round ((10 * (70 : ℚ) + 6.25 * 170 - 5 * 30 + 5) * specMultiplier "moderate" +
        specGoalOffset (some "lose_weight"))) :=
  ⟨by norm_num, by norm_num, by norm_num,
   (calorie_formula_matches_spec _ 30 170 70 "male" "moderate" rfl (by norm_num) rfl
      (by norm_num) rfl (by norm_num) rfl rfl (Or.inr (Or.inr (Or.inl rfl)))).1 rfl⟩

/-- C5: `detectIntent` lowercases the query and returns the intent of
the first matching rule of the spec's ordered rule list (`null` when
none matches); in particular a query matching both the weight-loss and
weight-gain patterns yields `weight_loss`. -/
theorem detectIntent_first_match (q : String) :
    Part006.detectIntent q = detectIntentSpec q ∧
    (Part006.regexTest ["lose", "fat", "slim", "weight loss"] (jsToLower q) = true →
     Part006.regexTest ["gain", "bulk", "muscle", "weight gain"] (jsToLower q) = true →
     Part006.detectIntent q = some .weight_loss) := by
  refine ⟨rfl, ?_⟩
  intro h1 _h2
  simp [Part006.detectIntent, h1]

/-- Witness for C5 on a query matching both the weight-loss and the
weight-gain pattern. -/
theorem detectIntent_first_match_w :
    Part006.regexTest ["lose", "fat", "slim", "weight loss"]
      (jsToLower "Lose fat, gain muscle") = true ∧
    Part006.regexTest ["gain", "bulk", "muscle", "weight gain"]
      (jsToLower "Lose fat, gain muscle") = true ∧
    Part006.detectIntent "Lose fat, gain muscle" = some .weight_loss :=
  ⟨by decide, by decide,
   (detectIntent_first_match "Lose fat, gain muscle").2 (by decide) (by decide)⟩

/-- Pushing non-members one by one only ever appends to the accumulator. -/
theorem foldl_pushNew_append (detected : List String) :
    ∀ acc : List String, ∃ e,
      detected.foldl (fun l a => if a ∈ l then l else l ++ [a]) acc = acc ++ e := by
  induction detected with
  | nil => exact fun acc => ⟨[], by simp⟩
  | cons d t ih =>
    intro acc
    by_cases hd : d ∈ acc
    · rcases ih acc with ⟨e, he⟩
      exact ⟨e, by simpa [List.foldl_cons, hd] using he⟩
    · rcases ih (acc ++ [d]) with ⟨e, he⟩
      refine ⟨d :: e, ?_⟩
      rw [List.foldl_cons, if_neg hd, he, List.append_assoc]
      rfl

/-- If a prefix of the scanned list satisfies the predicate somewhere,
`findSome?` over the whole list yields the image of a witness of the
prefix. -/
theorem findSome?_pred_append {α β : Type} (f : α → Option β) (p : α → Bool) (g : α → β)
    (hf : ∀ x, f x = if p x then some (g x) else none) (l₁ l₂ : List α)
    (h : ∃ a ∈ l₁, p a = true) :
    ∃ a, a ∈ l₁ ∧ p a = true ∧ (l₁ ++ l₂).findSome? f = some (g a) := by
  induction l₁ with
  | nil => simp at h
  | cons b t ih =>
    by_cases hb : p b = true
    · refine ⟨b, by simp, hb, ?_⟩
      rw [List.cons_append, List.findSome?_cons, hf b, if_pos hb]
    · have h' : ∃ a ∈ t, p a = true := by
        rcases h with ⟨a, ha, hpa⟩
        rcases List.mem_cons.mp ha with rfl | hat
        · exact absurd hpa hb
        · exact ⟨a, hat, hpa⟩
      rcases ih h' with ⟨a, hat, hpa, heq⟩
      refine ⟨a, List.mem_cons_of_mem _ hat, hpa, ?_⟩
      rw [List.cons_append, List.findSome?_cons, hf b, if_neg hb, heq]

/-- The enforcement scan finds a refusal as soon as some allergen of
the stored prefix matches the query. -/
theorem enforce_finds (query : String) (l e : List String)
    (h : ∃ a ∈ l, Part006.allergyHit query a = true) :
    ∃ a, a ∈ l ∧ Part006.allergyHit query a = true ∧
      Part006.enforceAllergyRules query (l ++ e) = some (Part006.refusalText a) := by
  exact findSome?_pred_append _ (Part006.allergyHit query) Part006.refusalText
    (fun x => rfl) l e h

/-- C2: whenever the lowercased query contains an alias of an allergen
stored in the user's allergy list, the snapshot's `getAiReply` answers
with the templated refusal for a matching stored allergen and does not
call the external generative-language API. -/
theorem allergy_short_circuit (apiKey : String) (outcome : Part006.FetchOutcome)
    (ctx : Part006.ChatContext) (query : String) (hkey : apiKey ≠ "")
    (hmatch : ∃ a ∈ ctx.allergies, Part006.allergyHit query a = true) :
    ∃ a, a ∈ ctx.allergies ∧ Part006.allergyHit query a = true ∧
      (Part006.getAiReply apiKey outcome ctx query).reply = Part006.refusalText a ∧
      (Part006.getAiReply apiKey outcome ctx query).calledApi = false := by
  obtain ⟨e, he⟩ :=
    foldl_pushNew_append (Part006.detectUserAllergies query) ctx.allergies
  obtain ⟨a, hmem, hhit, henf⟩ := enforce_finds query ctx.allergies e hmatch
  refine ⟨a, hmem, hhit, ?_, ?_⟩ <;>
  · simp only [Part006.getAiReply, if_neg hkey]
    rw [he, henf]

/-- Witness for C2: a user with a stored milk allergy asking about
cheese is refused without an API call. -/
theorem allergy_short_circuit_w :
    ("key" : String) ≠ "" ∧
    (∃ a ∈ ["milk"], Part006.allergyHit "Can I eat cheese?" a = true) ∧
    (∃ a, a ∈ ["milk"] ∧ Part006.allergyHit "Can I eat cheese?" a = true ∧
      (Part006.getAiReply "key" .noText ⟨none, ["milk"]⟩ "Can I eat cheese?").reply =
        Part006.refusalText a ∧
      (Part006.getAiReply "key" .noText ⟨none, ["milk"]⟩ "Can I eat cheese?").calledApi = false) :=
  ⟨by decide, ⟨"milk", by decide, by decide⟩,
   allergy_short_circuit "key" .noText ⟨none, ["milk"]⟩ "Can I eat cheese?"
     (by decide) ⟨"milk", by decide, by decide⟩⟩

/-- C4: for a `usda-<fdcId>` food id, `ensureFoodExists` returns the id
of an already cached row without fetching or inserting; on a cache miss
it fetches once and inserts exactly one normalized row storing the food
id in `barcode_upc` (so the same lookup afterwards is a cache hit), and
on a failed fetch it returns `null` and inserts nothing. -/
theorem usda_cache_fill (numParse : String → Option ℚ) (usdaKey : String)
    (usdaFetch : String → Diary.UsdaFetch) (db : Db) (s : String)
    (hs : strStarts s "usda-" = true) :
    (∀ f, db.foods.find? (fun f => f.barcode_upc == some s) = some f →
       Diary.ensureFoodExists numParse usdaKey usdaFetch db (.str s) =
         ⟨some (f.id : ℚ), db, true, false⟩) ∧
    (db.foods.find? (fun f => f.barcode_upc == some s) = none →
      ∀ d, Diary.getUsdaFoodDetails usdaKey (usdaFetch (Diary.stripUsdaOnce s)) = some d →
        Diary.ensureFoodExists numParse usdaKey usdaFetch db (.str s) =
          ⟨some (db.nextFoodId : ℚ),
           { db with
             foods := db.foods ++
               [⟨db.nextFoodId, d.name, some s, d.calories, d.protein, d.carbs,
                 d.fat, d.serving_size, d.serving_unit⟩],
             nextFoodId := db.nextFoodId + 1 }, true, true⟩ ∧
        Diary.ensureFoodExists numParse usdaKey usdaFetch
            (Diary.ensureFoodExists numParse usdaKey usdaFetch db (.str s)).db (.str s) =
          ⟨some (db.nextFoodId : ℚ),
           (Diary.ensureFoodExists numParse usdaKey usdaFetch db (.str s)).db,
           true, false⟩) ∧
    (db.foods.find? (fun f => f.barcode_upc == some s) = none →
      Diary.getUsdaFoodDetails usdaKey (usdaFetch (Diary.stripUsdaOnce s)) = none →
        Diary.ensureFoodExists numParse usdaKey usdaFetch db (.str s) =
          ⟨none, db, true, true⟩) := by
  refine ⟨?_, ?_, ?_⟩
  · intro f hf
    simp [Diary.ensureFoodExists, hs, hf]
  · intro hnone d hd
    have hrow : (db.foods ++
        [(⟨db.nextFoodId, d.name, some s, d.calories, d.protein, d.carbs,
           d.fat, d.serving_size, d.serving_unit⟩ : FoodItem)]).find?
          (fun f => f.barcode_upc == some s) =
        some ⟨db.nextFoodId, d.name, some s, d.calories, d.protein, d.carbs,
              d.fat, d.serving_size, d.serving_unit⟩ := by
      rw [List.find?_append, hnone]
      simp
    constructor
    · simp [Diary.ensureFoodExists, hs, hnone, hd]
    · simp [Diary.ensureFoodExists, hs, hnone, hd, hrow]
  · intro hnone hfail
    simp [Diary.ensureFoodExists, hs, hnone, hfail]

/-- Witness for C4: a cache miss on an empty food table followed by the
cache hit on the inserted row. -/
theorem usda_cache_fill_w :
    strStarts "usda-7" "usda-" = true ∧
    sampleDb.foods.find? (fun f => f.barcode_upc == some "usda-7") = none ∧
    Diary.getUsdaFoodDetails "k" (sampleUsdaFetch (Diary.stripUsdaOnce "usda-7")) =
      some sampleFoodDetails ∧
    (Diary.ensureFoodExists sampleNumParse "k" sampleUsdaFetch sampleDb (.str "usda-7") =
       ⟨some (sampleDb.nextFoodId : ℚ),
        { sampleDb with
          foods := sampleDb.foods ++
            [⟨sampleDb.nextFoodId, sampleFoodDetails.name, some "usda-7",
              sampleFoodDetails.calories, sampleFoodDetails.protein,
              sampleFoodDetails.carbs, sampleFoodDetails.fat,
              sampleFoodDetails.serving_size, sampleFoodDetails.serving_unit⟩],
          nextFoodId := sampleDb.nextFoodId + 1 }, true, true⟩ ∧
     Diary.ensureFoodExists sampleNumParse "k" sampleUsdaFetch
         (Diary.ensureFoodExists sampleNumParse "k" sampleUsdaFetch sampleDb
           (.str "usda-7")).db (.str "usda-7") =
       ⟨some (sampleDb.nextFoodId : ℚ),
        (Diary.ensureFoodExists sampleNumParse "k" sampleUsdaFetch sampleDb
          (.str "usda-7")).db, true, false⟩) :=
  ⟨by decide, by decide, by decide,
   (usda_cache_fill sampleNumParse "k" sampleUsdaFetch sampleDb "usda-7"
       (by decide)).2.1 (by decide) sampleFoodDetails (by decide)⟩

/-- C10: a numeric `food_id`, or a string one without the `usda-`
prefix, passes straight through `ensureFoodExists` as `Number(food_id)`
with no database read, no fetch and no insert; consequently the
`Invalid food item` 400 of the diary POST can only arise for
`usda-`-prefixed ids or when `Number(food_id)` is `0` or `NaN`. -/
theorem ensure_local_passthrough (numParse : String → Option ℚ) (usdaKey : String)
    (usdaFetch : String → Diary.UsdaFetch) (db : Db) :
    (∀ n : ℚ, Diary.ensureFoodExists numParse usdaKey usdaFetch db (.num n) =
       ⟨some n, db, false, false⟩) ∧
    (∀ s, strStarts s "usda-" = false →
       Diary.ensureFoodExists numParse usdaKey usdaFetch db (.str s) =
         ⟨numParse s, db, false, false⟩) ∧
    (∀ (today uid : Nat) (fid : Diary.FoodId) (mt : String),
       (Diary.diaryPost numParse usdaKey usdaFetch today (some uid) (some fid)
           (some mt) db).2 = ⟨400, "Invalid food item"⟩ →
       (∃ s, fid = .str s ∧ strStarts s "usda-" = true) ∨
         Diary.toNumber numParse fid = some 0 ∨ Diary.toNumber numParse fid = none) := by
  refine ⟨fun n => rfl, fun s hs => by simp [Diary.ensureFoodExists, hs], ?_⟩
  intro today uid fid mt h
  cases fid with
  | num n =>
    by_cases hn : n = 0
    · simp [Diary.diaryPost, Diary.jsTruthyFoodId, hn] at h
    · by_cases hmt : mt = ""
      · simp [Diary.diaryPost, Diary.jsTruthyFoodId, jsTruthyS, hn, hmt] at h
      · simp only [Diary.diaryPost, Diary.jsTruthyFoodId, jsTruthyS,
          Diary.ensureFoodExists, hn, hmt] at h
        simp at h
        repeat' split at h
        all_goals simp_all
  | str s =>
    by_cases hs : strStarts s "usda-" = true
    · exact Or.inl ⟨s, rfl, hs⟩
    · have hs' : strStarts s "usda-" = false := by simpa using hs
      right
      by_cases hss : s = ""
      · simp [Diary.diaryPost, Diary.jsTruthyFoodId, hss] at h
      · simp only [Diary.diaryPost, Diary.jsTruthyFoodId, jsTruthyS,
          Diary.ensureFoodExists, hs', hss] at h
        simp at h
        rcases hq : numParse s with _ | q
        · exact Or.inr (by simp [Diary.toNumber, hq])
        · rw [hq] at h
          by_cases hq0 : q = 0
          · exact Or.inl (by simp [Diary.toNumber, hq, hq0])
          · simp [hq0] at h
            repeat' split at h
            all_goals simp_all

/-- Witness for C10 on a plain numeric string id. -/
theorem ensure_local_passthrough_w :
    strStarts "5" "usda-" = false ∧
    Diary.ensureFoodExists sampleNumParse "k" sampleUsdaFetch sampleDb (.str "5") =
      ⟨sampleNumParse "5", sampleDb, false, false⟩ :=
  ⟨by decide,
   (ensure_local_passthrough sampleNumParse "k" sampleUsdaFetch sampleDb).2.1 "5"
     (by decide)⟩

/-- C3: for an authenticated diary POST naming a valid local food (the
resolved id exists without touching the food table and is non-zero), an
existing log with the same user, food, meal type and day yields 409
with the database unchanged, and otherwise exactly one `diary_logs` row
is appended with status 201. -/
theorem diary_duplicate_guard (numParse : String → Option ℚ) (usdaKey : String)
    (usdaFetch : String → Diary.UsdaFetch) (today : Nat) (db : Db) (uid : Nat)
    (fid : Diary.FoodId) (mt : String) (q : ℚ)
    (hfid : Diary.jsTruthyFoodId (some fid) = true) (hmt : mt ≠ "")
    (hdb : (Diary.ensureFoodExists numParse usdaKey usdaFetch db fid).db = db)
    (hret : (Diary.ensureFoodExists numParse usdaKey usdaFetch db fid).ret = some q)
    (hq : q ≠ 0) :
    (Diary.dupExists db uid q mt today = true →
       Diary.diaryPost numParse usdaKey usdaFetch today (some uid) (some fid)
           (some mt) db =
         (db, ⟨409, "This item is already in your " ++ mt ++ " list."⟩)) ∧
    (Diary.dupExists db uid q mt today = false →
       (Diary.diaryPost numParse usdaKey usdaFetch today (some uid) (some fid)
           (some mt) db).1 =
         { db with logs := db.logs ++ [⟨db.nextLogId, uid, q, mt, today⟩],
                   nextLogId := db.nextLogId + 1 } ∧
       (Diary.diaryPost numParse usdaKey usdaFetch today (some uid) (some fid)
           (some mt) db).2 = ⟨201, "Food logged successfully"⟩) := by
  constructor <;> intro hdup <;>
  · cases e : Diary.ensureFoodExists numParse usdaKey usdaFetch db fid with
    | mk ret db' qd cu =>
      rw [e] at hret hdb
      have hr : ret = some q := hret
      have hd' : db' = db := hdb
      subst hr hd'
      simp [Diary.diaryPost, jsTruthyS, e, hfid, hmt, hq, hdup]

/-- Witness for C3 at a concrete non-duplicate insertion. -/
theorem diary_duplicate_guard_w :
    Diary.jsTruthyFoodId (some (.num 5)) = true ∧ ("lunch" : String) ≠ "" ∧
    (Diary.ensureFoodExists sampleNumParse "k" sampleUsdaFetch sampleDb (.num 5)).db =
      sampleDb ∧
    (Diary.ensureFoodExists sampleNumParse "k" sampleUsdaFetch sampleDb (.num 5)).ret =
      some 5 ∧
    (5 : ℚ) ≠ 0 ∧
    (Diary.dupExists sampleDb 1 5 "lunch" 10 = false →
       (Diary.diaryPost sampleNumParse "k" sampleUsdaFetch 10 (some 1)
           (some (.num 5)) (some "lunch") sampleDb).1 =
         { sampleDb with
           logs := sampleDb.logs ++ [⟨sampleDb.nextLogId, 1, 5, "lunch", 10⟩],
           nextLogId := sampleDb.nextLogId + 1 } ∧
       (Diary.diaryPost sampleNumParse "k" sampleUsdaFetch 10 (some 1)
           (some (.num 5)) (some "lunch") sampleDb).2 =
         ⟨201, "Food logged successfully"⟩) :=
  ⟨by decide, by decide, by decide, by decide, by decide,
   (diary_duplicate_guard sampleNumParse "k" sampleUsdaFetch 10 sampleDb 1
      (.num 5) "lunch" 5 (by decide) (by decide) (by decide) (by decide)
      (by decide)).2⟩

/-- C6 counterexample: an authenticated recommendation request whose
external fetch throws is answered with status 500, not 200 — the
claimed "never propagated as an error status" fails on the
recommendation handler. -/
theorem recommend_throw_counterexample :
    (recommendPost .throws sampleDb (some 1) (some "plan my meals") (some "plan")).2 =
      ⟨500, "Error processing AI request."⟩ ∧
    (recommendPost .throws sampleDb (some 1) (some "plan my meals")
        (some "plan")).2.status ≠ 200 :=
  ⟨rfl, by decide⟩

/-- C6 (amended): an authenticated chat POST degrades every external
failure (thrown fetch, error body, missing candidate text) to status
200 with one of the fixed fallback strings; the recommendation handler
degrades an error body or missing candidate text to status 200 with its
fallback string, but a thrown fetch reaches the catch-all and returns
status 500. -/
theorem external_failure_degrades :
    (∀ (gkey : String) (outcome : Part006.FetchOutcome) (uid : Nat) (raw : String)
       (db : Db), gkey ≠ "" → jsTrim raw ≠ "" →
       (outcome = .throws ∨ outcome = .errorField ∨ outcome = .noText) →
       (ChatRoute.chatPost gkey outcome (some uid) (some raw) db).2.status = 200 ∧
       (ChatRoute.chatPost gkey outcome (some uid) (some raw) db).2.body ∈
         (["I seem to be offline. Please try again in a moment.",
           "I'm having a bit of trouble focusing. Could you repeat that?",
           "How can I help you with your nutrition today?"] : List String)) ∧
    (∀ (outcome : Part006.FetchOutcome) (uid : Nat) (q t : Option String) (db : Db),
       (outcome = .errorField ∨ outcome = .noText) →
       recommendPost outcome db (some uid) q t =
         (db, ⟨200, "I'm sorry, I couldn't generate a recommendation right now."⟩)) ∧
    (∀ (uid : Nat) (q t : Option String) (db : Db),
       recommendPost .throws db (some uid) q t =
         (db, ⟨500, "Error processing AI request."⟩)) := by
  refine ⟨?_, ?_, fun uid q t db => rfl⟩
  · intro gkey outcome uid raw db hkey htrim houtcome
    rcases houtcome with rfl | rfl | rfl <;>
      simp [ChatRoute.chatPost, ChatRoute.getAiReply, htrim, hkey]
  · intro outcome uid q t db houtcome
    rcases houtcome with rfl | rfl <;> rfl

/-- Witness for the amended C6 at concrete requests. -/
theorem external_failure_degrades_w :
    ("k" : String) ≠ "" ∧ jsTrim " hi " ≠ "" ∧
    ((ChatRoute.chatPost "k" .throws (some 1) (some " hi ") sampleDb).2.status = 200 ∧
     (ChatRoute.chatPost "k" .throws (some 1) (some " hi ") sampleDb).2.body ∈
       (["I seem to be offline. Please try again in a moment.",
         "I'm having a bit of trouble focusing. Could you repeat that?",
         "How can I help you with your nutrition today?"] : List String)) ∧
    recommendPost .noText sampleDb (some 1) (some "a recipe") (some "recipe") =
      (sampleDb, ⟨200, "I'm sorry, I couldn't generate a recommendation right now."⟩) ∧
    recommendPost .throws sampleDb (some 1) (some "a recipe") (some "recipe") =
      (sampleDb, ⟨500, "Error processing AI request."⟩) :=
  ⟨by decide, by decide,
   external_failure_degrades.1 "k" .throws 1 " hi " sampleDb (by decide) (by decide)
     (Or.inl rfl),
   external_failure_degrades.2.1 .noText 1 (some "a recipe") (some "recipe") sampleDb
     (Or.inr rfl),
   external_failure_degrades.2.2 1 (some "a recipe") (some "recipe") sampleDb⟩

/-- Updating the allergy field is invisible after forgetting allergies. -/
theorem clearAllergies_update (u : User) (uid : Nat) (L : List String) :
    clearAllergies (if u.id == uid then { u with allergies := some L } else u) =
      clearAllergies u := by
  split <;> rfl

/-- The allergy `UPDATE` leaves the allergy-free view of `users` intact. -/
theorem map_clear_update (l : List User) (uid : Nat) (L : List String) :
    (l.map (fun u => if u.id == uid then { u with allergies := some L } else u)).map
        clearAllergies = l.map clearAllergies := by
  induction l with
  | nil => rfl
  | cons u t ih => simp only [List.map_cons, ih, clearAllergies_update]

/-- The chat route's `getAiReply` touches nothing in the database
except possibly the allergy field of `users` rows. -/
theorem getAiReply_frame (gkey : String) (outcome : Part006.FetchOutcome) (db : Db)
    (uid : Nat) (q : String) :
    (ChatRoute.getAiReply gkey outcome db uid q).2.foods = db.foods ∧
    (ChatRoute.getAiReply gkey outcome db uid q).2.nextFoodId = db.nextFoodId ∧
    (ChatRoute.getAiReply gkey outcome db uid q).2.logs = db.logs ∧
    (ChatRoute.getAiReply gkey outcome db uid q).2.nextLogId = db.nextLogId ∧
    (ChatRoute.getAiReply gkey outcome db uid q).2.messages = db.messages ∧
    (ChatRoute.getAiReply gkey outcome db uid q).2.nextMsgId = db.nextMsgId ∧
    (ChatRoute.getAiReply gkey outcome db uid q).2.nextUserId = db.nextUserId ∧
    (ChatRoute.getAiReply gkey outcome db uid q).2.users.map clearAllergies =
      db.users.map clearAllergies := by
  simp only [ChatRoute.getAiReply]
  split
  · simp
  · by_cases hd : 0 < (ChatRoute.detectAllergyKeys q).length
    · simp only [hd, reduceIte, ChatRoute.updateUsersAllergies]
      refine ⟨trivial, trivial, trivial, trivial, trivial, trivial, trivial, ?_⟩
      rw [List.map_map]
      congr 1
      funext u
      simp only [Function.comp_apply]
      split <;> rfl
    · simp [hd]

/-- `ensureFoodExists` touches nothing in the database except appending
to `food_items`. -/
theorem ensure_frame (numParse : String → Option ℚ) (usdaKey : String)
    (usdaFetch : String → Diary.UsdaFetch) (db : Db) (fid : Diary.FoodId) :
    (Diary.ensureFoodExists numParse usdaKey usdaFetch db fid).db.users = db.users ∧
    (Diary.ensureFoodExists numParse usdaKey usdaFetch db fid).db.nextUserId = db.nextUserId ∧
    (Diary.ensureFoodExists numParse usdaKey usdaFetch db fid).db.logs = db.logs ∧
    (Diary.ensureFoodExists numParse usdaKey usdaFetch db fid).db.nextLogId = db.nextLogId ∧
    (Diary.ensureFoodExists numParse usdaKey usdaFetch db fid).db.messages = db.messages ∧
    (Diary.ensureFoodExists numParse usdaKey usdaFetch db fid).db.nextMsgId = db.nextMsgId ∧
    ∃ e, (Diary.ensureFoodExists numParse usdaKey usdaFetch db fid).db.foods =
      db.foods ++ e := by
  cases fid with
  | num n => exact ⟨rfl, rfl, rfl, rfl, rfl, rfl, [], by simp [Diary.ensureFoodExists]⟩
  | str s =>
    simp only [Diary.ensureFoodExists]
    split
    · exact ⟨rfl, rfl, rfl, rfl, rfl, rfl, [], by simp⟩
    · split
      · exact ⟨rfl, rfl, rfl, rfl, rfl, rfl, [], by simp⟩
      · split
        · exact ⟨rfl, rfl, rfl, rfl, rfl, rfl, [], by simp⟩
        · exact ⟨rfl, rfl, rfl, rfl, rfl, rfl, _, rfl⟩

/-- The login handler never writes. -/
theorem loginPost_fst (db : Db) (e p : Option String) (ok : Bool)
    (s : Option String) : (loginPost db e p ok s).1 = db := by
  unfold loginPost
  repeat' split
  all_goals rfl

/-- The profile handler never writes. -/
theorem meGet_fst (db : Db) (a : Option Nat) : (meGet db a).1 = db := by
  unfold meGet
  repeat' split
  all_goals rfl

/-- The barcode handler never writes. -/
theorem barcodeGet_fst (db : Db) (u : Option String) : (barcodeGet db u).1 = db := by
  unfold barcodeGet
  repeat' split
  all_goals rfl

/-- The diary GET handler never writes. -/
theorem diaryGet_fst (db : Db) (a : Option Nat) (d : Option String) :
    (Diary.diaryGet db a d).1 = db := by
  unfold Diary.diaryGet
  repeat' split
  all_goals rfl

/-- The chat GET handler never writes. -/
theorem chatGet_fst (db : Db) (a : Option Nat) : (ChatRoute.chatGet db a).1 = db := by
  unfold ChatRoute.chatGet
  repeat' split
  all_goals rfl

/-- The recommendation handler never writes. -/
theorem recommendPost_fst (o : Part006.FetchOutcome) (db : Db) (a : Option Nat)
    (q t : Option String) : (recommendPost o db a q t).1 = db := by
  unfold recommendPost
  repeat' split
  all_goals rfl

/-- Reflexivity of the frame property. -/
theorem preserves_refl (db : Db) : Preserves db db :=
  ⟨List.prefix_rfl, List.prefix_rfl, List.prefix_rfl, List.prefix_rfl⟩

/-- Every handler preserves all stored rows up to the allergy field,
and every handler except the chat POST preserves `users` rows exactly. -/
theorem preserves_all (op : Op) (db : Db) :
    Preserves db (applyOp op db).1 ∧
    (isChatPost op = false → db.users <+: (applyOp op db).1.users) := by
  cases op with
  | register b =>
    simp only [applyOp, registerPost]
    split
    · exact ⟨preserves_refl db, fun _ => List.prefix_rfl⟩
    · split
      · exact ⟨preserves_refl db, fun _ => List.prefix_rfl⟩
      · refine ⟨⟨List.prefix_rfl, List.prefix_rfl, List.prefix_rfl, ?_⟩,
          fun _ => List.prefix_append _ _⟩
        simp only [List.map_append]
        exact List.prefix_append _ _
  | login e p ok s =>
    rw [show (applyOp (.login e p ok s) db).1 = db from loginPost_fst db e p ok s]
    exact ⟨preserves_refl db, fun _ => List.prefix_rfl⟩
  | me a =>
    rw [show (applyOp (.me a) db).1 = db from meGet_fst db a]
    exact ⟨preserves_refl db, fun _ => List.prefix_rfl⟩
  | foodSearch q =>
    exact ⟨preserves_refl db, fun _ => List.prefix_rfl⟩
  | barcode u =>
    rw [show (applyOp (.barcode u) db).1 = db from barcodeGet_fst db u]
    exact ⟨preserves_refl db, fun _ => List.prefix_rfl⟩
  | foodCustom a b =>
    simp only [applyOp, foodCustomPost]
    split
    · exact ⟨preserves_refl db, fun _ => List.prefix_rfl⟩
    · split
      · exact ⟨preserves_refl db, fun _ => List.prefix_rfl⟩
      · exact ⟨⟨List.prefix_append _ _, List.prefix_rfl, List.prefix_rfl,
          List.prefix_rfl⟩, fun _ => List.prefix_rfl⟩
  | diaryGet a d =>
    rw [show (applyOp (.diaryGet a d) db).1 = db from diaryGet_fst db a d]
    exact ⟨preserves_refl db, fun _ => List.prefix_rfl⟩
  | diaryPost np k uf today a fid mt =>
    cases a with
    | none => exact ⟨preserves_refl db, fun _ => List.prefix_rfl⟩
    | some uid =>
      cases fid with
      | none => exact ⟨preserves_refl db, fun _ => List.prefix_rfl⟩
      | some fid' =>
        cases mt with
        | none =>
          simp only [applyOp, Diary.diaryPost, jsTruthyS, Bool.and_false,
            Bool.not_false, if_true]
          exact ⟨preserves_refl db, fun _ => List.prefix_rfl⟩
        | some mt' =>
          simp only [applyOp, Diary.diaryPost]
          split
          · exact ⟨preserves_refl db, fun _ => List.prefix_rfl⟩
          · obtain ⟨hu, hnu, hl, hnl, hm, hnm, e, he⟩ := ensure_frame np k uf db fid'
            have hpres : Preserves db
                (Diary.ensureFoodExists np k uf db fid').db := by
              exact ⟨he ▸ List.prefix_append _ _, hl ▸ List.prefix_rfl,
                hm ▸ List.prefix_rfl, hu ▸ List.prefix_rfl⟩
            have husers : db.users <+:
                (Diary.ensureFoodExists np k uf db fid').db.users :=
              hu ▸ List.prefix_rfl
            split
            · exact ⟨hpres, fun _ => husers⟩
            · split
              · exact ⟨hpres, fun _ => husers⟩
              · split
                · exact ⟨hpres, fun _ => husers⟩
                · refine ⟨⟨?_, ?_, ?_, ?_⟩, fun _ => husers⟩
                  · rw [he]; exact List.prefix_append _ _
                  · rw [hl]; exact List.prefix_append _ _
                  · rw [hm]
                  · rw [hu]
  | chatGet a =>
    rw [show (applyOp (.chatGet a) db).1 = db from chatGet_fst db a]
    exact ⟨preserves_refl db, fun _ => List.prefix_rfl⟩
  | chatPost k o a m =>
    refine ⟨?_, fun h => nomatch h⟩
    cases a with
    | none => exact preserves_refl db
    | some uid =>
      cases m with
      | none => exact preserves_refl db
      | some raw =>
        simp only [applyOp, ChatRoute.chatPost]
        split
        · exact preserves_refl db
        · dsimp only
          obtain ⟨hf, hnf, hl, hnl, hm, hnm, hnu, hus⟩ :=
            getAiReply_frame k o
              { db with messages := db.messages ++ [⟨db.nextMsgId, uid, 0, jsTrim raw⟩],
                        nextMsgId := db.nextMsgId + 1 } uid (jsTrim raw)
          refine ⟨?_, ?_, ?_, ?_⟩
          · rw [hf]
          · rw [hl]
          · rw [hm]
            simp only [List.append_assoc]
            exact List.prefix_append _ _
          · rw [hus]
  | recommend o a q t =>
    rw [show (applyOp (.recommend o a q t) db).1 = db from recommendPost_fst o db a q t]
    exact ⟨preserves_refl db, fun _ => List.prefix_rfl⟩

/-- C7: a successful chat POST with a non-empty trimmed message appends
exactly two rows to `messages` — the trimmed user message addressed to
the AI, then the AI reply (fallbacks included) addressed to the user —
and no handler ever removes or rewrites an existing `messages` row, so
the transcript is append-only. -/
theorem chat_transcript_append_only :
    (∀ (gkey : String) (outcome : Part006.FetchOutcome) (uid : Nat) (raw : String)
       (db : Db), jsTrim raw ≠ "" →
       ∃ reply,
         (ChatRoute.chatPost gkey outcome (some uid) (some raw) db).1.messages =
           db.messages ++ [⟨db.nextMsgId, uid, 0, jsTrim raw⟩,
                           ⟨db.nextMsgId + 1, 0, uid, reply⟩] ∧
         (ChatRoute.chatPost gkey outcome (some uid) (some raw) db).2 =
           ⟨200, reply⟩) ∧
    (∀ (op : Op) (db : Db), db.messages <+: (applyOp op db).1.messages) := by
  constructor
  · intro gkey outcome uid raw db htrim
    obtain ⟨hf, hnf, hl, hnl, hm, hnm, hnu, hus⟩ :=
      getAiReply_frame gkey outcome
        { db with messages := db.messages ++ [⟨db.nextMsgId, uid, 0, jsTrim raw⟩],
                  nextMsgId := db.nextMsgId + 1 } uid (jsTrim raw)
    refine ⟨(ChatRoute.getAiReply gkey outcome
        { db with messages := db.messages ++ [⟨db.nextMsgId, uid, 0, jsTrim raw⟩],
                  nextMsgId := db.nextMsgId + 1 } uid (jsTrim raw)).1, ?_, ?_⟩ <;>
      simp only [ChatRoute.chatPost, htrim, reduceIte, hm, hnm, List.append_assoc,
        List.cons_append, List.nil_append]
  · intro op db
    exact (preserves_all op db).1.2.2.1

/-- Witness for C7: a concrete chat POST appends its two rows, and a
concrete other operation leaves the transcript a prefix. -/
theorem chat_transcript_append_only_w :
    jsTrim " hi " ≠ "" ∧
    (∃ reply,
       (ChatRoute.chatPost "k" .throws (some 1) (some " hi ") sampleDb).1.messages =
         sampleDb.messages ++ [⟨sampleDb.nextMsgId, 1, 0, jsTrim " hi "⟩,
                               ⟨sampleDb.nextMsgId + 1, 0, 1, reply⟩] ∧
       (ChatRoute.chatPost "k" .throws (some 1) (some " hi ") sampleDb).2 =
         ⟨200, reply⟩) ∧
    sampleDb.messages <+: (applyOp (.chatGet (some 1)) sampleDb).1.messages :=
  ⟨by decide,
   chat_transcript_append_only.1 "k" .throws 1 " hi " sampleDb (by decide),
   chat_transcript_append_only.2 (.chatGet (some 1)) sampleDb⟩

/-- C8: no handler deletes any stored row; `food_items`, `diary_logs`
and `messages` rows are immutable once created, and `users` rows change
only in their `allergies` field (and only the chat POST can touch it). -/
theorem no_deletes_only_allergy_updates :
    ∀ (op : Op) (db : Db),
      Preserves db (applyOp op db).1 ∧
      (isChatPost op = false → db.users <+: (applyOp op db).1.users) :=
  preserves_all

/-- Witness for C8 at a concrete non-chat operation. -/
theorem no_deletes_only_allergy_updates_w :
    isChatPost (.me (some 1)) = false ∧
    Preserves sampleDb (applyOp (.me (some 1)) sampleDb).1 ∧
    sampleDb.users <+: (applyOp (.me (some 1)) sampleDb).1.users :=
  ⟨rfl, (no_deletes_only_allergy_updates (.me (some 1)) sampleDb).1,
   (no_deletes_only_allergy_updates (.me (some 1)) sampleDb).2 rfl⟩

/-- Membership under the first-occurrence deduplicating fold. -/
theorem mem_dedupFold (l : List String) :
    ∀ (acc : List String) (a : String),
      (a ∈ l.foldl (fun acc x => if x ∈ acc then acc else acc ++ [x]) acc) ↔
        a ∈ acc ∨ a ∈ l := by
  induction l with
  | nil => intro acc a; simp
  | cons x t ih =>
    intro acc a
    rw [List.foldl_cons, ih]
    by_cases hx : x ∈ acc
    · simp only [if_pos hx, List.mem_cons]
      constructor
      · rintro (h | h)
        · exact Or.inl h
        · exact Or.inr (Or.inr h)
      · rintro (h | rfl | h)
        · exact Or.inl h
        · exact Or.inl hx
        · exact Or.inr h
    · simp only [if_neg hx, List.mem_append, List.mem_singleton, List.mem_cons]
      tauto

/-- The first-occurrence deduplicating fold keeps the accumulator
duplicate-free. -/
theorem nodup_dedupFold (l : List String) :
    ∀ acc : List String, acc.Nodup →
      (l.foldl (fun acc x => if x ∈ acc then acc else acc ++ [x]) acc).Nodup := by
  induction l with
  | nil => intro acc h; simpa using h
  | cons x t ih =>
    intro acc h
    rw [List.foldl_cons]
    apply ih
    by_cases hx : x ∈ acc
    · simpa [hx] using h
    · simp only [if_neg hx]
      simp [List.nodup_append, h, hx]

/-- `Array.from(new Set(l))` keeps exactly the elements of `l`. -/
theorem jsSetDedup_mem (l : List String) (a : String) :
    a ∈ ChatRoute.jsSetDedup l ↔ a ∈ l := by
  rw [ChatRoute.jsSetDedup, mem_dedupFold]
  simp

/-- `Array.from(new Set(l))` is duplicate-free. -/
theorem jsSetDedup_nodup (l : List String) : (ChatRoute.jsSetDedup l).Nodup :=
  nodup_dedupFold l [] List.nodup_nil

/-- The allergy `UPDATE` commutes with the row lookup by user id. -/
theorem filter_update_users (l : List User) (uid : Nat) (L : List String) :
    (l.map (fun u => if u.id == uid then { u with allergies := some L } else u)).filter
        (fun u => u.id == uid) =
      (l.filter (fun u => u.id == uid)).map
        (fun u => { u with allergies := some L }) := by
  induction l with
  | nil => rfl
  | cons u t ih =>
    simp only [List.map_cons, List.filter_cons, beq_iff_eq] at ih ⊢
    by_cases h : u.id = uid
    · simp [h, ih]
    · simp [h, ih]

/-- Reading back the allergy list right after the `UPDATE` returns the
written list (provided the user row exists). -/
theorem storedAllergies_update (db : Db) (uid : Nat) (L : List String)
    (hex : ∃ u ∈ db.users, u.id = uid) :
    ChatRoute.storedAllergies (ChatRoute.updateUsersAllergies db uid L) uid = L := by
  rcases hex with ⟨u0, hmem, hid⟩
  have hne : db.users.filter (fun u => u.id == uid) ≠ [] := by
    intro hnil
    have := List.filter_eq_nil_iff.mp hnil u0 hmem
    simp [hid] at this
  unfold ChatRoute.storedAllergies ChatRoute.getUserContext
    ChatRoute.updateUsersAllergies
  simp only [filter_update_users]
  cases hfil : db.users.filter (fun u => u.id == uid) with
  | nil => exact absurd hfil hne
  | cons v rest => simp [hfil]

/-- C9: the chat route rewrites the stored allergy list only when the
query mentions at least one allergen key, and then the written list is
the duplicate-free union of the previously stored list with the
detected keys — it keeps every previously stored allergen and contains
no duplicates. -/
theorem allergy_union_monotone (gkey : String) (outcome : Part006.FetchOutcome)
    (db : Db) (uid : Nat) (query : String) (hkey : gkey ≠ "")
    (hex : ∃ u ∈ db.users, u.id = uid) :
    (ChatRoute.detectAllergyKeys query = [] →
       (ChatRoute.getAiReply gkey outcome db uid query).2 = db) ∧
    (ChatRoute.detectAllergyKeys query ≠ [] →
       ChatRoute.storedAllergies (ChatRoute.getAiReply gkey outcome db uid query).2 uid =
         ChatRoute.jsSetDedup
           (ChatRoute.storedAllergies db uid ++ ChatRoute.detectAllergyKeys query) ∧
       (∀ a ∈ ChatRoute.storedAllergies db uid,
          a ∈ ChatRoute.storedAllergies
                (ChatRoute.getAiReply gkey outcome db uid query).2 uid) ∧
       (ChatRoute.storedAllergies
           (ChatRoute.getAiReply gkey outcome db uid query).2 uid).Nodup ∧
       (∀ a, a ∈ ChatRoute.storedAllergies
                   (ChatRoute.getAiReply gkey outcome db uid query).2 uid ↔
          a ∈ ChatRoute.storedAllergies db uid ∨
            a ∈ ChatRoute.detectAllergyKeys query)) := by
  constructor
  · intro hdet
    simp [ChatRoute.getAiReply, hkey, hdet]
  · intro hdet
    have hpos : 0 < (ChatRoute.detectAllergyKeys query).length :=
      List.length_pos.mpr hdet
    have hstep : (ChatRoute.getAiReply gkey outcome db uid query).2 =
        ChatRoute.updateUsersAllergies db uid
          (ChatRoute.jsSetDedup
            (ChatRoute.storedAllergies db uid ++ ChatRoute.detectAllergyKeys query)) := by
      simp [ChatRoute.getAiReply, hkey, hpos, ChatRoute.storedAllergies]
    rw [hstep, storedAllergies_update db uid _ hex]
    refine ⟨rfl, ?_, jsSetDedup_nodup _, ?_⟩
    · intro a ha
      rw [jsSetDedup_mem]
      exact List.mem_append.mpr (Or.inl ha)
    · intro a
      rw [jsSetDedup_mem, List.mem_append]

/-- Witness for C9: the stored milk allergy is joined by a newly
mentioned peanut allergy. -/
theorem allergy_union_monotone_w :
    ("k" : String) ≠ "" ∧ (∃ u ∈ sampleDb.users, u.id = 1) ∧
    ChatRoute.detectAllergyKeys "I am allergic to peanuts" ≠ [] ∧
    (ChatRoute.storedAllergies
        (ChatRoute.getAiReply "k" .noText sampleDb 1 "I am allergic to peanuts").2 1 =
      ChatRoute.jsSetDedup
        (ChatRoute.storedAllergies sampleDb 1 ++
          ChatRoute.detectAllergyKeys "I am allergic to peanuts") ∧
     (∀ a ∈ ChatRoute.storedAllergies sampleDb 1,
        a ∈ ChatRoute.storedAllergies
              (ChatRoute.getAiReply "k" .noText sampleDb 1
                "I am allergic to peanuts").2 1) ∧
     (ChatRoute.storedAllergies
         (ChatRoute.getAiReply "k" .noText sampleDb 1
           "I am allergic to peanuts").2 1).Nodup ∧
     (∀ a, a ∈ ChatRoute.storedAllergies
                 (ChatRoute.getAiReply "k" .noText sampleDb 1
                   "I am allergic to peanuts").2 1 ↔
        a ∈ ChatRoute.storedAllergies sampleDb 1 ∨
          a ∈ ChatRoute.detectAllergyKeys "I am allergic to peanuts")) :=
  ⟨by decide, ⟨sampleUser, by decide, by decide⟩, by decide,
   (allergy_union_monotone "k" .noText sampleDb 1 "I am allergic to peanuts"
      (by decide) ⟨sampleUser, by decide, by decide⟩).2 (by decide)⟩

end Backend
